import Mathlib

/-!
Verification of the GCS redis communication core (`src/ray/gcs/redis_context.cc`):
the callback-token registry (`RedisCallbackManager`), the two reply routers
(`GlobalRedisCallback` for the command connection, `SubscribeRedisCallback` for
the subscribe connection), the blocking connect/retry loop (`RedisContext::Connect`),
and the two async dispatchers (`RunAsync`, `SubscribeAsync`).

Modelling conventions:
- A hiredis `redisReply` is the inductive `Reply`.  The `str`/`len` field pair of a
  reply is `strField` (`none` models a NULL `str` pointer, as hiredis leaves it for
  nil/array/integer replies).
- Byte payloads are `List Nat`.
- Callbacks are opaque identifiers (`Nat`); an invocation of callback `cb` with
  payload `d` is recorded as the event `Event.invoke cb d`, and `RAY_LOG(ERROR)`
  as `Event.logError`.
- `RAY_LOG(FATAL)` / a failed `RAY_CHECK` abort the process: outcome `fatal`.
- C++ undefined behaviour (out-of-bounds `element[...]` access, `strcmp` on a NULL
  pointer, `std::string(NULL, n)`, dereferencing a null `unique_ptr`) is the
  outcome `undefinedBehavior`: the semantics of the program are not defined there.
-/

namespace RayGcs

/-- Byte strings (payloads, reply strings). -/
abbrev Bytes := List Nat

/-- A hiredis reply.  The five shapes the design treats as legal are
nil, string, array, status and error; `integer` stands for any reply type
outside those five (it reaches the routers' final `else` branches). -/
inductive Reply where
  | nil
  | str (s : Bytes)
  | array (es : List Reply)
  | status (s : Bytes)
  | error (s : Bytes)
  | integer (n : Int)

/-- The `(str, len)` field pair of a `redisReply`.  hiredis fills it for
string, status and error replies and leaves `str == NULL` otherwise
(modelled as `none`). -/
def strField : Reply → Option Bytes
  | .str s => some s
  | .status s => some s
  | .error s => some s
  | _ => none

/-- The bytes `strcmp` actually compares: everything up to the first NUL. -/
def cstr (s : Bytes) : Bytes := s.takeWhile (fun b => b ≠ 0)

/-- `strcmp(a, b) == 0` on NUL-terminated views of the two byte strings. -/
def strcmpEq (a b : Bytes) : Bool := cstr a = cstr b

/-- ASCII bytes of `"subscribe"`. -/
def subscribeStr : Bytes := [115, 117, 98, 115, 99, 114, 105, 98, 101]

/-- ASCII bytes of `"message"`. -/
def messageStr : Bytes := [109, 101, 115, 115, 97, 103, 101]

/-- `RedisCallbackManager`: `callbacks_` is a map from `int64_t` token to
`std::unique_ptr<RedisCallback>`; the `Option Nat` value models the
`unique_ptr` (`none` = null pointer), the `Nat` an opaque callback.
`num_callbacks` is the next token to hand out. -/
structure RedisCallbackManager where
  callbacks : List (Int × Option Nat)
  num_callbacks : Int
deriving DecidableEq, Repr

/-- First entry with key `i` in an association list of map entries. -/
def lookupEntries (i : Int) : List (Int × Option Nat) → Option (Option Nat)
  | [] => none
  | (k, v) :: rest => if k = i then some v else lookupEntries i rest

/-- Drop the entry with key `i` (`map::erase`). -/
def removeEntries (i : Int) : List (Int × Option Nat) → List (Int × Option Nat)
  | [] => []
  | (k, v) :: rest =>
    if k = i then removeEntries i rest else (k, v) :: removeEntries i rest

namespace RedisCallbackManager

/-- Map lookup (`callbacks_.find`-style): the entry stored under the key. -/
def lookup (m : RedisCallbackManager) (i : Int) : Option (Option Nat) :=
  lookupEntries i m.callbacks

/-- `add`: `callbacks_.emplace(num_callbacks, unique_ptr(new RedisCallback(f)))`,
then `return num_callbacks++`. -/
def add (m : RedisCallbackManager) (cb : Nat) : Int × RedisCallbackManager :=
  (m.num_callbacks,
   { callbacks := m.callbacks ++ [(m.num_callbacks, some cb)],
     num_callbacks := m.num_callbacks + 1 })

/-- `remove`: `callbacks_.erase(callback_index)`. -/
def remove (m : RedisCallbackManager) (i : Int) : RedisCallbackManager :=
  { m with callbacks := removeEntries i m.callbacks }

end RedisCallbackManager

/-- Result of `RedisCallbackManager::get`.  `fatalDiagnostic` is what a checked
`RAY_CHECK`-style failure (process termination with a diagnostic) would
produce — the source body of `get` contains no such check, so the definition
below never returns it.  `undefinedBehavior` is the undefined behaviour of dereferencing
a null `unique_ptr`. -/
inductive GetResult where
  | ok (cb : Nat)
  | fatalDiagnostic
  | undefinedBehavior
deriving DecidableEq, Repr

/-- `RedisCallbackManager::get`: `return *callbacks_[callback_index];`.
`operator[]` on an absent key default-inserts a value-initialised (null)
`unique_ptr`; dereferencing it is undefined behaviour.  The returned manager
is the map after the `operator[]` call. -/
def RedisCallbackManager.get (m : RedisCallbackManager) (i : Int) :
    GetResult × RedisCallbackManager :=
  match m.lookup i with
  | some (some cb) => (.ok cb, m)
  | some none => (.undefinedBehavior, m)
  | none => (.undefinedBehavior, { m with callbacks := m.callbacks ++ [(i, none)] })

/-- Observable side effects of a router call. -/
inductive Event where
  | logError
  | invoke (cb : Nat) (data : Bytes)
deriving DecidableEq, Repr

/-- Outcome of one router invocation.
`noop`: the reply pointer was NULL and the router returned immediately.
`ok events m`: the router ran to completion, producing `events` in order and
leaving the registry in state `m`.
`fatal events`: `RAY_LOG(FATAL)` or a failed `RAY_CHECK` aborted the process
after producing `events`.
`undefinedBehavior`: execution hit C++ undefined behaviour. -/
inductive CmdOutcome where
  | noop
  | ok (events : List Event) (m : RedisCallbackManager)
  | fatal (events : List Event)
  | undefinedBehavior
deriving DecidableEq, Repr

/-- Events a router produced before stopping (empty for `noop`/`undefinedBehavior`). -/
def CmdOutcome.events : CmdOutcome → List Event
  | .ok evs _ => evs
  | .fatal evs => evs
  | _ => []

def Event.isInvoke : Event → Bool
  | .invoke _ _ => true
  | _ => false

/-- How many callback invocations an outcome contains. -/
def CmdOutcome.invokeCount (o : CmdOutcome) : Nat :=
  (o.events.filter Event.isInvoke).length

/-- Intermediate result of the payload-decoding `if`/`else` chain of
`GlobalRedisCallback` (lines 27–40): the accumulated log events and the
`data` string, or the fatal `else` branch, or undefined behaviour. -/
inductive DecodeResult where
  | ok (events : List Event) (data : Bytes)
  | fatal (events : List Event)
  | undefinedBehavior
deriving DecidableEq, Repr

/-- The payload decode of `GlobalRedisCallback`:
`data = ""`; nil → unchanged; string → `std::string(str, len)`;
array → `reply = element[elements - 1]; data = std::string(reply->str, reply->len)`
(out of bounds on an empty array; `str == NULL` on a non-string element);
status → unchanged; error → `RAY_LOG(ERROR)`; anything else → `RAY_LOG(FATAL)`. -/
def cmdDecode : Reply → DecodeResult
  | .nil => .ok [] []
  | .str s => .ok [] s
  | .array es =>
    match es.getLast? with
    | none => .undefinedBehavior
    | some last =>
      match strField last with
      | some s => .ok [] s
      | none => .undefinedBehavior
  | .status _ => .ok [] []
  | .error _ => .ok [.logError] []
  | .integer _ => .fatal []

/-- `GlobalRedisCallback(c, r, privdata)`: the command-connection reply router.
NULL reply → return; otherwise decode `data`, then
`RedisCallbackManager::instance().get(callback_index)(data)` followed by
`RedisCallbackManager::instance().remove(callback_index)`. -/
def GlobalRedisCallback (r : Option Reply) (callback_index : Int)
    (m : RedisCallbackManager) : CmdOutcome :=
  match r with
  | none => .noop
  | some reply =>
    match cmdDecode reply with
    | .fatal evs => .fatal evs
    | .undefinedBehavior => .undefinedBehavior
    | .ok evs data =>
      match m.get callback_index with
      | (.ok cb, m') => .ok (evs ++ [.invoke cb data]) (m'.remove callback_index)
      | _ => .undefinedBehavior

/-- `get(callback_index)(data)` as the subscribe-path router performs it:
look the callback up and invoke it, with NO `remove` afterwards (there may be
more subscription messages).  Undefined behaviour if the token is absent or
maps to a null pointer. -/
def subscribeInvoke (callback_index : Int) (data : Bytes)
    (m : RedisCallbackManager) : CmdOutcome :=
  match m.get callback_index with
  | (.ok cb, m') => .ok [.invoke cb data] m'
  | _ => .undefinedBehavior

/-- `SubscribeRedisCallback(c, r, privdata)`: the subscribe-connection reply
router.  NULL reply → return.  Array reply: `message_type = element[0]`;
`"subscribe"` → leave `data` empty; `"message"` →
`data = std::string(element[elements - 1]->str, ...)` and
`RAY_CHECK(!data.empty())`; any other type string → `RAY_LOG(FATAL)`;
then `get(callback_index)(data)` with NO `remove`.  Error reply →
`RAY_LOG(ERROR)` only.  Any other reply type → `RAY_LOG(FATAL)`. -/
def SubscribeRedisCallback (r : Option Reply) (callback_index : Int)
    (m : RedisCallbackManager) : CmdOutcome :=
  match r with
  | none => .noop
  | some reply =>
    match reply with
    | .array es =>
      match es.head? with
      | none => .undefinedBehavior
      | some message_type =>
        match strField message_type with
        | none => .undefinedBehavior
        | some mt =>
          if strcmpEq mt subscribeStr then
            subscribeInvoke callback_index [] m
          else if strcmpEq mt messageStr then
            match es.getLast? with
            | none => .undefinedBehavior
            | some message =>
              match strField message with
              | none => .undefinedBehavior
              | some data =>
                if data.isEmpty then .fatal []
                else subscribeInvoke callback_index data m
          else .fatal []
    | .error _ => .ok [.logError] m
    | _ => .fatal []

/-- Outcome of `RedisContext::Connect`'s retry loop.  `connected k sleeps`:
the `redisConnect` call number `k` (0-based) succeeded after the recorded
sleeps (milliseconds, in order).  `fatalExhausted`: the retry budget was
exhausted and `RAY_LOG(FATAL)` fired. -/
inductive ConnectResult where
  | connected (attempt : Nat) (sleeps : List Nat)
  | fatalExhausted (sleeps : List Nat)
deriving DecidableEq, Repr

/-- The `while (context_ == nullptr || context_->err)` loop of
`RedisContext::Connect`.  `ok k` tells whether the `k`-th `redisConnect`
call yields a usable context.  `remaining` is
`redis_db_connect_retries() - connection_attempts`: the loop body's guard
`connection_attempts >= retries` is exactly `remaining = 0`.  On each retry
the loop sleeps `waitMs` milliseconds and reconnects. -/
def connectLoop (ok : Nat → Bool) (waitMs : Nat) :
    Nat → List Nat → Nat → ConnectResult
  | idx, sleeps, 0 =>
    if ok idx then .connected idx sleeps else .fatalExhausted sleeps
  | idx, sleeps, r + 1 =>
    if ok idx then .connected idx sleeps
    else connectLoop ok waitMs (idx + 1) (sleeps ++ [waitMs]) r

/-- `RedisContext::Connect` up to the end of the retry loop:
`connection_attempts = 0`, first `redisConnect`, then the retry loop with
`redis_db_connect_retries() = retries` and
`redis_db_connect_wait_milliseconds() = waitMs`. -/
def Connect (ok : Nat → Bool) (retries : Nat) (waitMs : Nat) : ConnectResult :=
  connectLoop ok waitMs 0 [] retries

/-- One positional argument of an issued async redis command: `%d` arguments
carry an integer, `%b` arguments a length-prefixed (binary-safe) byte string. -/
inductive WireArg where
  | int (n : Int)
  | bytes (b : Bytes)
deriving DecidableEq, Repr

/-- Which low-level completion handler was registered with
`redisAsyncCommand`. -/
inductive HandlerTag where
  | globalCb
  | subscribeCb
deriving DecidableEq, Repr

/-- One `redisAsyncCommand` call as it reaches the wire: the registered reply
handler, the `privdata` correlation value
(`reinterpret_cast<void *>(callback_index)`), the printf-style format string,
and the positional arguments. -/
structure AsyncCommand where
  handler : HandlerTag
  privdata : Int
  format : String
  args : List WireArg
deriving DecidableEq, Repr

/-- Outcome of `RunAsync` / `SubscribeAsync`.  `fatalCheck`: the entry
`RAY_CHECK` failed and the process aborted before any `redisAsyncCommand`
call.  `sent cmd ok`: the wire request `cmd` was issued; `ok = false` models
`redisAsyncCommand` returning `REDIS_ERR`, in which case the function returns
`Status::RedisError` (the request was still attempted). -/
inductive DispatchResult where
  | fatalCheck
  | sent (cmd : AsyncCommand) (ok : Bool)
deriving DecidableEq, Repr

/-- `RedisContext::RunAsync(command, id, data, length, pubsub_channel,
callback_index)`.  `sendOk` abstracts the transport: whether the
`redisAsyncCommand` call returns something other than `REDIS_ERR`. -/
def RunAsync (command : String) (id : Bytes) (data : Bytes) (length : Int)
    (pubsub_channel : Int) (callback_index : Int) (sendOk : Bool) :
    DispatchResult :=
  if length > 0 then
    .sent { handler := .globalCb, privdata := callback_index,
            format := command ++ " %d %b %b",
            args := [.int pubsub_channel, .bytes id, .bytes data] } sendOk
  else
    .sent { handler := .globalCb, privdata := callback_index,
            format := command ++ " %d %b",
            args := [.int pubsub_channel, .bytes id] } sendOk

/-- Modelled from the spec: the value of the `TablePubsub_NO_PUBLISH` enum
member, the reserved sentinel marking "pub/sub disabled for this table".
The enum's definition lives in a generated flatbuffers header that is not
part of the sources; only its distinguishedness matters here. -/
def TablePubsub_NO_PUBLISH : Int := 0

/-- Modelled from the spec: a `ClientID` as `SubscribeAsync` consumes it —
its `is_nil()` predicate (wildcard recipient) and its `data()`/`size()` bytes.
The `UniqueID` class itself is declared in a header not part of the sources. -/
structure ClientID where
  is_nil : Bool
  bytes : Bytes
deriving DecidableEq, Repr

/-- `RedisContext::SubscribeAsync(client_id, pubsub_channel, callback_index)`:
`RAY_CHECK(pubsub_channel != TablePubsub_NO_PUBLISH)`, then
`SUBSCRIBE %d` (nil client: all messages) or `SUBSCRIBE %d:%b` (scoped to the
client), registering `SubscribeRedisCallback` with the token as `privdata`. -/
def SubscribeAsync (client_id : ClientID) (pubsub_channel : Int)
    (callback_index : Int) (sendOk : Bool) : DispatchResult :=
  if pubsub_channel = TablePubsub_NO_PUBLISH then .fatalCheck
  else if client_id.is_nil then
    .sent { handler := .subscribeCb, privdata := callback_index,
            format := "SUBSCRIBE %d", args := [.int pubsub_channel] } sendOk
  else
    .sent { handler := .subscribeCb, privdata := callback_index,
            format := "SUBSCRIBE %d:%b",
            args := [.int pubsub_channel, .bytes client_id.bytes] } sendOk

/-- A registry with one live token: callback `7` stored under token `0`. -/
def mgr1 : RedisCallbackManager := ⟨[(0, some 7)], 1⟩

example : GlobalRedisCallback (some (.str [1, 2])) 0 mgr1 =
    .ok [.invoke 7 [1, 2]] ⟨[], 1⟩ := by decide
example : GlobalRedisCallback (some (.error [65])) 0 mgr1 =
    .ok [.logError, .invoke 7 []] ⟨[], 1⟩ := by decide
example : GlobalRedisCallback (some (.array [])) 0 mgr1 = .undefinedBehavior := by decide
example : GlobalRedisCallback (some (.array [.str [9], .str [1]])) 0 mgr1 =
    .ok [.invoke 7 [1]] ⟨[], 1⟩ := by decide
example : SubscribeRedisCallback (some (.array [.str subscribeStr, .integer 3])) 0 mgr1 =
    .ok [.invoke 7 []] mgr1 := by decide
example : SubscribeRedisCallback (some (.array [.str messageStr, .str []])) 0 mgr1 =
    .fatal [] := by decide
example : SubscribeRedisCallback (some (.array [.str messageStr, .str [5]])) 0 mgr1 =
    .ok [.invoke 7 [5]] mgr1 := by decide
example : SubscribeRedisCallback (some (.error [65])) 0 mgr1 =
    .ok [.logError] mgr1 := by decide
example : SubscribeRedisCallback (some (.array [])) 0 mgr1 = .undefinedBehavior := by decide
example : ((RedisCallbackManager.mk [] 0).get 5).1 = GetResult.undefinedBehavior := by decide

/-- The five reply shapes the design treats as legal (everything but the
routers' final `else` branch). -/
def isLegalShape : Reply → Bool
  | .integer _ => false
  | _ => true

/-! ### Registry lemmas -/

lemma lookupEntries_removeEntries (i : Int) (l : List (Int × Option Nat)) :
    lookupEntries i (removeEntries i l) = none := by
  induction l with
  | nil => rfl
  | cons p rest ih =>
    obtain ⟨k, v⟩ := p
    by_cases h : k = i
    · simpa [removeEntries, h] using ih
    · simpa [removeEntries, lookupEntries, h] using ih

/-- After `remove i`, token `i` is absent from the registry. -/
lemma RedisCallbackManager.lookup_remove_self (m : RedisCallbackManager)
    (i : Int) : (m.remove i).lookup i = none :=
  lookupEntries_removeEntries i m.callbacks

/-- Appending an entry for an absent key makes it the one found. -/
lemma lookupEntries_append_absent (i : Int) (v : Option Nat)
    (l : List (Int × Option Nat)) (h : lookupEntries i l = none) :
    lookupEntries i (l ++ [(i, v)]) = some v := by
  induction l with
  | nil => simp [lookupEntries]
  | cons p rest ih =>
    obtain ⟨k, w⟩ := p
    by_cases hk : k = i
    · simp [lookupEntries, hk] at h
    · simp only [lookupEntries, hk, if_false, List.cons_append] at h ⊢
      simp [lookupEntries, hk] at h ⊢
      exact ih h

/-- `get` on a live token returns its callback and leaves the map unchanged. -/
lemma RedisCallbackManager.get_registered (m : RedisCallbackManager) (i : Int)
    (cb : Nat) (h : m.lookup i = some (some cb)) : m.get i = (.ok cb, m) := by
  unfold RedisCallbackManager.get
  rw [h]

/-- A subscribe-path invocation that completes leaves the registry unchanged. -/
lemma subscribeInvoke_ok (i : Int) (d : Bytes) (m : RedisCallbackManager)
    (evs : List Event) (m' : RedisCallbackManager)
    (h : subscribeInvoke i d m = .ok evs m') : m' = m := by
  unfold subscribeInvoke RedisCallbackManager.get at h
  cases hl : m.lookup i with
  | none => rw [hl] at h; exact absurd h (by simp)
  | some v =>
    cases v with
    | none => rw [hl] at h; exact absurd h (by simp)
    | some cb =>
      rw [hl] at h
      injection h with h1 h2
      exact h2.symm

/-! ### Claim theorems -/

/-- The decode step of the command-path router never invokes a callback
itself: its log events contain no invocation. -/
lemma cmdDecode_ok_no_invoke (reply : Reply) (evs : List Event) (data : Bytes)
    (h : cmdDecode reply = .ok evs data) :
    List.filter Event.isInvoke evs = [] := by
  cases reply with
  | nil =>
    simp only [cmdDecode] at h
    injection h with h1 h2; subst h1; rfl
  | str s =>
    simp only [cmdDecode] at h
    injection h with h1 h2; subst h1; rfl
  | array es =>
    simp only [cmdDecode] at h
    split at h
    · exact absurd h (by simp)
    · split at h
      · injection h with h1 h2; subst h1; rfl
      · exact absurd h (by simp)
  | status s =>
    simp only [cmdDecode] at h
    injection h with h1 h2; subst h1; rfl
  | error s =>
    simp only [cmdDecode] at h
    injection h with h1 h2; subst h1; rfl
  | integer n => exact absurd h (by simp [cmdDecode])

/-- C1 (amended): for every non-null reply of one of the five legal shapes
whose payload decode is defined (for an Array reply that requires a non-empty
array whose last element carries a byte string — `cmdDecode` returns `ok`),
delivered to the command-path router with a registered token, the registered
callback is invoked exactly once, with the decoded payload, and afterwards
the token's entry is removed from the registry — including when the reply is
an Error. -/
theorem cmd_router_single_shot (reply : Reply) (evs : List Event)
    (data : Bytes) (i : Int) (cb : Nat) (m : RedisCallbackManager)
    (hleg : isLegalShape reply = true)
    (hdec : cmdDecode reply = .ok evs data)
    (hreg : m.lookup i = some (some cb)) :
    GlobalRedisCallback (some reply) i m =
      .ok (evs ++ [.invoke cb data]) (m.remove i) ∧
    List.filter Event.isInvoke (evs ++ [.invoke cb data]) =
      [.invoke cb data] ∧
    (m.remove i).lookup i = none := by
  have hget := m.get_registered i cb hreg
  refine ⟨?_, ?_, m.lookup_remove_self i⟩
  · simp [GlobalRedisCallback, hdec, hget]
  · rw [List.filter_append, cmdDecode_ok_no_invoke reply evs data hdec]
    simp [List.filter, Event.isInvoke]

/-- C1 witness: an Error reply routed for live token 0 of `mgr1`. -/
theorem cmd_router_single_shot_witness :
    GlobalRedisCallback (some (.error [65])) 0 mgr1 =
      .ok ([Event.logError] ++ [.invoke 7 []]) (mgr1.remove 0) ∧
    List.filter Event.isInvoke ([Event.logError] ++ [.invoke 7 []]) =
      [.invoke 7 []] ∧
    (mgr1.remove 0).lookup 0 = none :=
  cmd_router_single_shot (.error [65]) [.logError] [] 0 7 mgr1
    (by decide) (by decide) (by decide)

/-- C1 counterexample: the empty Array reply is one of the five legal shapes,
is delivered with token 0 registered in `mgr1`, yet the callback is never
invoked — `element[elements - 1]` is out of bounds and the router's behaviour
is undefined. -/
theorem cmd_router_empty_array_cex :
    isLegalShape (Reply.array []) = true ∧
    mgr1.lookup 0 = some (some 7) ∧
    GlobalRedisCallback (some (Reply.array [])) 0 mgr1 = CmdOutcome.undefinedBehavior ∧
    (GlobalRedisCallback (some (Reply.array [])) 0 mgr1).invokeCount = 0 := by
  decide

/-- C2: on a server-side Error reply the command-path router logs the error
and still invokes the registered callback with an empty payload (and retires
the token), while the subscribe-path router logs the error and invokes no
callback at all, leaving the registry untouched. -/
theorem error_reply_asymmetry (msg : Bytes) (i : Int) (cb : Nat)
    (m : RedisCallbackManager) (hreg : m.lookup i = some (some cb)) :
    GlobalRedisCallback (some (.error msg)) i m =
      .ok [.logError, .invoke cb []] (m.remove i) ∧
    SubscribeRedisCallback (some (.error msg)) i m = .ok [.logError] m ∧
    (SubscribeRedisCallback (some (.error msg)) i m).invokeCount = 0 := by
  have hget := m.get_registered i cb hreg
  refine ⟨?_, ?_, ?_⟩
  · simp [GlobalRedisCallback, cmdDecode, hget]
  · simp [SubscribeRedisCallback]
  · simp [SubscribeRedisCallback, CmdOutcome.invokeCount, CmdOutcome.events,
      Event.isInvoke, List.filter]

/-- C2 witness: error reply `"A"` routed for live token 0 of `mgr1`. -/
theorem error_reply_asymmetry_witness :
    GlobalRedisCallback (some (.error [65])) 0 mgr1 =
      .ok [.logError, .invoke 7 []] (mgr1.remove 0) ∧
    SubscribeRedisCallback (some (.error [65])) 0 mgr1 =
      .ok [.logError] mgr1 ∧
    (SubscribeRedisCallback (some (.error [65])) 0 mgr1).invokeCount = 0 :=
  error_reply_asymmetry [65] 0 7 mgr1 (by decide)

/-- C3: command-path payload decoding — a String reply with payload `P`
invokes the callback with exactly `P`; an Array reply `es ++ [en]` invokes it
with the bytes of the last element `en` only; Nil and Status replies both
invoke it with the empty payload. -/
theorem cmd_decode_shapes (P s st : Bytes) (es : List Reply) (en : Reply)
    (i : Int) (cb : Nat) (m : RedisCallbackManager)
    (hreg : m.lookup i = some (some cb)) (hen : strField en = some s) :
    GlobalRedisCallback (some (.str P)) i m =
      .ok [.invoke cb P] (m.remove i) ∧
    GlobalRedisCallback (some (.array (es ++ [en]))) i m =
      .ok [.invoke cb s] (m.remove i) ∧
    GlobalRedisCallback (some .nil) i m = .ok [.invoke cb []] (m.remove i) ∧
    GlobalRedisCallback (some (.status st)) i m =
      .ok [.invoke cb []] (m.remove i) := by
  have hget := m.get_registered i cb hreg
  refine ⟨?_, ?_, ?_, ?_⟩
  · simp [GlobalRedisCallback, cmdDecode, hget]
  · simp [GlobalRedisCallback, cmdDecode, hget, List.getLast?_concat, hen]
  · simp [GlobalRedisCallback, cmdDecode, hget]
  · simp [GlobalRedisCallback, cmdDecode, hget]

/-- C3 witness: `"hi"` as String; `[Status "OK", String "hi"]` as Array; Nil;
Status — all routed for live token 0 of `mgr1`. -/
theorem cmd_decode_shapes_witness :
    GlobalRedisCallback (some (.str [104, 105])) 0 mgr1 =
      .ok [.invoke 7 [104, 105]] (mgr1.remove 0) ∧
    GlobalRedisCallback (some (.array ([.status [79]] ++ [.str [104, 105]])))
        0 mgr1 = .ok [.invoke 7 [104, 105]] (mgr1.remove 0) ∧
    GlobalRedisCallback (some .nil) 0 mgr1 =
      .ok [.invoke 7 []] (mgr1.remove 0) ∧
    GlobalRedisCallback (some (.status [79])) 0 mgr1 =
      .ok [.invoke 7 []] (mgr1.remove 0) :=
  cmd_decode_shapes [104, 105] [104, 105] [79] [.status [79]]
    (.str [104, 105]) 0 7 mgr1 (by decide) (by decide)

/-- C4 (amended): for every token absent from the registry, `get` is
undefined behaviour, not a checked termination with a diagnostic: `operator[]`
default-inserts a null entry (the token becomes present, mapping to null) and
the null pointer is dereferenced; no diagnostic is produced and no value or
recoverable error is returned. -/
theorem get_absent_undefined (m : RedisCallbackManager) (i : Int)
    (h : m.lookup i = none) :
    (m.get i).1 = GetResult.undefinedBehavior ∧
    (m.get i).1 ≠ GetResult.fatalDiagnostic ∧
    (m.get i).2.lookup i = some none := by
  have hg : m.get i =
      (.undefinedBehavior, { m with callbacks := m.callbacks ++ [(i, none)] }) := by
    unfold RedisCallbackManager.get
    rw [h]
  refine ⟨by rw [hg], by rw [hg]; simp, ?_⟩
  rw [hg]
  exact lookupEntries_append_absent i none m.callbacks h

/-- C4 witness: token 5 absent from the empty registry. -/
theorem get_absent_undefined_witness :
    ((RedisCallbackManager.mk [] 0).get 5).1 = GetResult.undefinedBehavior ∧
    ((RedisCallbackManager.mk [] 0).get 5).1 ≠ GetResult.fatalDiagnostic ∧
    ((RedisCallbackManager.mk [] 0).get 5).2.lookup 5 = some none :=
  get_absent_undefined (RedisCallbackManager.mk [] 0) 5 (by decide)

/-- C4 counterexample: `get` on a token absent from the (empty) registry does
not terminate with a diagnostic — the source body of `get` has no check, so
the outcome is the undefined behaviour of a null `unique_ptr` dereference. -/
theorem get_absent_no_diagnostic_cex :
    ((RedisCallbackManager.mk [] 0).get 5).1 = GetResult.undefinedBehavior ∧
    ((RedisCallbackManager.mk [] 0).get 5).1 ≠ GetResult.fatalDiagnostic := by
  decide

/-- Any subscribe-path routing that runs to completion leaves the registry
exactly as it was. -/
lemma subscribe_ok_preserves (r : Option Reply) (i : Int)
    (m m' : RedisCallbackManager) (evs : List Event)
    (hok : SubscribeRedisCallback r i m = .ok evs m') : m' = m := by
  cases r with
  | none => exact absurd hok (by simp [SubscribeRedisCallback])
  | some reply =>
    cases reply with
    | array es =>
      simp only [SubscribeRedisCallback] at hok
      repeat' split at hok
      all_goals
        first
          | exact subscribeInvoke_ok _ _ _ _ _ hok
          | exact absurd hok (by simp)
    | error s =>
      simp only [SubscribeRedisCallback] at hok
      injection hok with h1 h2
      exact h2.symm
    | nil => exact absurd hok (by simp [SubscribeRedisCallback])
    | str s => exact absurd hok (by simp [SubscribeRedisCallback])
    | status s => exact absurd hok (by simp [SubscribeRedisCallback])
    | integer n => exact absurd hok (by simp [SubscribeRedisCallback])

/-- C5: an Array reply opening with the string `"subscribe"` makes the
subscribe-path router invoke the registered callback with an empty payload
while keeping the token registered; and every completed subscribe-path
routing (`r` arbitrary) leaves the registry exactly as it was — this router
never removes a token. -/
theorem subscribe_router_persistent (es : List Reply) (r : Option Reply)
    (evs : List Event) (i : Int) (cb : Nat) (m m' : RedisCallbackManager)
    (hreg : m.lookup i = some (some cb))
    (hok : SubscribeRedisCallback r i m = .ok evs m') :
    SubscribeRedisCallback (some (.array (.str subscribeStr :: es))) i m =
      .ok [.invoke cb []] m ∧
    m' = m := by
  have hget := m.get_registered i cb hreg
  constructor
  · simp [SubscribeRedisCallback, strField, strcmpEq, subscribeInvoke, hget]
  · exact subscribe_ok_preserves r i m m' evs hok

/-- C5 witness: subscribe acknowledgment `["subscribe", 3]` for live token 0
of `mgr1`; the completed routing instantiated with an Error reply. -/
theorem subscribe_router_persistent_witness :
    SubscribeRedisCallback
        (some (.array (.str subscribeStr :: [.integer 3]))) 0 mgr1 =
      .ok [.invoke 7 []] mgr1 ∧
    mgr1 = mgr1 :=
  subscribe_router_persistent [.integer 3] (some (.error [65])) [.logError]
    0 7 mgr1 mgr1 (by decide) (by decide)

/-- C6: an Array reply opening with the string `"message"` whose last element
carries an empty byte string drives the subscribe-path router into the fatal
`RAY_CHECK` (process termination) with no callback invocation. -/
theorem subscribe_empty_message_fatal (pre : List Reply) (en : Reply)
    (i : Int) (m : RedisCallbackManager) (hen : strField en = some []) :
    SubscribeRedisCallback (some (.array (.str messageStr :: (pre ++ [en]))))
        i m = .fatal [] ∧
    (SubscribeRedisCallback (some (.array (.str messageStr :: (pre ++ [en]))))
        i m).invokeCount = 0 := by
  have hlast : (Reply.str messageStr :: (pre ++ [en])).getLast? = some en := by
    rw [← List.cons_append]
    exact List.getLast?_concat _
  have h1 : strcmpEq messageStr subscribeStr = false := by decide
  have h2 : strcmpEq messageStr messageStr = true := by decide
  have hmain : SubscribeRedisCallback
      (some (.array (.str messageStr :: (pre ++ [en])))) i m = .fatal [] := by
    have hhead : strField (.str messageStr) = some messageStr := rfl
    simp [SubscribeRedisCallback, hhead, h1, h2, hlast, hen]
  exact ⟨hmain, by rw [hmain]; rfl⟩

/-- C6 witness: `["message", ""]` — a published message whose payload is the
empty byte string — routed for token 0 of `mgr1`. -/
theorem subscribe_empty_message_fatal_witness :
    SubscribeRedisCallback (some (.array (.str messageStr :: ([] ++ [.str []]))))
        0 mgr1 = .fatal [] ∧
    (SubscribeRedisCallback (some (.array (.str messageStr :: ([] ++ [.str []]))))
        0 mgr1).invokeCount = 0 :=
  subscribe_empty_message_fatal [] (.str []) 0 mgr1 (by decide)

/-- C7: with 3 max connect retries and a 100 ms delay, when the first two
blocking connection attempts fail and the third succeeds, `Connect` sleeps
exactly twice for 100 ms and then proceeds with the successful connection —
the fatal retry-exhaustion path is not reached. -/
theorem connect_two_retries_then_success :
    Connect (fun n => decide (2 ≤ n)) 3 100 =
      ConnectResult.connected 2 [100, 100] := by decide

/-- C8: `SubscribeAsync` on the pub/sub-disabled sentinel channel fails the
entry `RAY_CHECK` fatally — no wire subscribe request is issued on the
subscribe connection (outcome `fatalCheck`, never `sent`). -/
theorem subscribe_async_no_publish_fatal (client_id : ClientID) (tok : Int)
    (sendOk : Bool) :
    SubscribeAsync client_id TablePubsub_NO_PUBLISH tok sendOk =
      DispatchResult.fatalCheck := by
  simp [SubscribeAsync]

/-- C9: `RunAsync` with a positive payload length issues a wire command with
the three positional binary-safe arguments channel, id, payload; otherwise
with exactly the two arguments channel, id; in both cases the token is the
`privdata` correlation value handed to the transport (the callback itself is
never passed). -/
theorem run_async_arg_encoding (command : String) (id data : Bytes)
    (length pubsub_channel tok : Int) (sendOk : Bool) :
    (0 < length →
      RunAsync command id data length pubsub_channel tok sendOk =
        .sent { handler := .globalCb, privdata := tok,
                format := command ++ " %d %b %b",
                args := [.int pubsub_channel, .bytes id, .bytes data] }
          sendOk) ∧
    (length ≤ 0 →
      RunAsync command id data length pubsub_channel tok sendOk =
        .sent { handler := .globalCb, privdata := tok,
                format := command ++ " %d %b",
                args := [.int pubsub_channel, .bytes id] } sendOk) := by
  constructor
  · intro h
    simp [RunAsync, h]
  · intro h
    simp [RunAsync, not_lt.mpr h]

/-- C9 witness: a `TABLE_ADD` with payload `"h"` (three arguments) and a
payload-less `TABLE_LOOKUP` (two arguments). -/
theorem run_async_arg_encoding_witness :
    RunAsync "TABLE_ADD" [1] [104] 1 5 7 true =
      .sent { handler := .globalCb, privdata := 7,
              format := "TABLE_ADD" ++ " %d %b %b",
              args := [.int 5, .bytes [1], .bytes [104]] } true ∧
    RunAsync "TABLE_LOOKUP" [1] [] 0 5 8 true =
      .sent { handler := .globalCb, privdata := 8,
              format := "TABLE_LOOKUP" ++ " %d %b",
              args := [.int 5, .bytes [1]] } true :=
  ⟨(run_async_arg_encoding "TABLE_ADD" [1] [104] 1 5 7 true).1 (by decide),
   (run_async_arg_encoding "TABLE_LOOKUP" [1] [] 0 5 8 true).2 (by decide)⟩

/-- C10: neither router checks an Array reply for emptiness — on the empty
Array both the command-path access `element[elements - 1]` and the
subscribe-path access `element[0]` are out of bounds (undefined behaviour),
and in particular the command-path router does NOT reach its documented
fatal protocol-violation branch. -/
theorem empty_array_reply_undefined (i : Int) (m : RedisCallbackManager) :
    GlobalRedisCallback (some (.array [])) i m = CmdOutcome.undefinedBehavior ∧
    GlobalRedisCallback (some (.array [])) i m ≠ CmdOutcome.fatal [] ∧
    SubscribeRedisCallback (some (.array [])) i m = CmdOutcome.undefinedBehavior := by
  refine ⟨?_, ?_, ?_⟩
  · simp [GlobalRedisCallback, cmdDecode]
  · simp [GlobalRedisCallback, cmdDecode]
  · simp [SubscribeRedisCallback]

end RayGcs
